import Mathlib

/-!
Shallow embedding of the webhook event ingestion and notification-formatting
pipeline of GitHubTelegramSyncBot (src/webhook_handler.py, src/utils.py,
src/config.py), together with theorems settling the specification claims.

Python values decoded from JSON are modelled by the inductive type `Json`;
Python expressions that can raise (attribute access on a non-dict, len() of a
non-sized value, ...) are modelled in the `Except PyErr` monad; a bare
`try/except` returning a default is modelled by `pyCatch`.
-/

namespace GhSync

/-- A value produced by `json.loads`: None, bool, int, str, list or dict. -/
inductive Json where
  | null : Json
  | bool (b : Bool) : Json
  | num (n : Int) : Json
  | str (s : String) : Json
  | arr (elems : List Json) : Json
  | obj (fields : List (String × Json)) : Json

/-- The Python exceptions the webhook pipeline can raise internally. -/
inductive PyErr where
  | attributeError : PyErr
  | typeError : PyErr
deriving DecidableEq

/-- Last-wins association lookup (duplicate JSON keys: the last one wins,
as in CPython's json.loads). -/
def lookupLast (fields : List (String × Json)) (key : String) : Option Json :=
  fields.foldl (fun acc p => if p.1 = key then some p.2 else acc) none

/-- Python `v.get(key, dflt)`: defined on dicts only; any other receiver raises
AttributeError (no `.get` attribute). -/
def dictGet : Json → String → Json → Except PyErr Json
  | .obj fields, key, dflt => .ok ((lookupLast fields key).getD dflt)
  | _, _, _ => .error .attributeError

/-- The value `dict.get(key, dflt)` yields on a dict with the given fields:
the stored value when the key is present, the default when it is absent. -/
def getOr (fields : List (String × Json)) (key : String) (dflt : Json) : Json :=
  (lookupLast fields key).getD dflt

/-- Python truthiness of a JSON-decoded value. -/
def pyTruthy : Json → Bool
  | .null => false
  | .bool b => b
  | .num n => decide (n ≠ 0)
  | .str s => decide (s ≠ "")
  | .arr xs => !xs.isEmpty
  | .obj fs => !fs.isEmpty

/-- Python `len(v)`: defined for str, list, dict; TypeError otherwise. -/
def pyLen : Json → Except PyErr Nat
  | .str s => .ok s.length
  | .arr xs => .ok xs.length
  | .obj fs => .ok fs.length
  | _ => .error .typeError

/-- Python `v[:n]`: slicing is defined for str and list; TypeError otherwise. -/
def pySliceTake (n : Nat) : Json → Except PyErr Json
  | .str s => .ok (.str (String.mk (s.data.take n)))
  | .arr xs => .ok (.arr (xs.take n))
  | _ => .error .typeError

/-- Python `for x in v`: iterating a list yields its elements, a str its characters
(as 1-char strs), a dict its keys; TypeError otherwise. -/
def pyIter : Json → Except PyErr (List Json)
  | .arr xs => .ok xs
  | .str s => .ok (s.data.map (fun c => .str (String.mk [c])))
  | .obj fs => .ok (fs.map (fun p => .str p.1))
  | _ => .error .typeError

mutual

/-- Python `repr(v)` for JSON-decoded values (strings rendered with single quotes;
quote-escaping corner cases of CPython are not needed by any payload here). -/
def pyRepr : Json → String
  | .null => "None"
  | .bool true => "True"
  | .bool false => "False"
  | .num n => toString n
  | .str s => "'" ++ s ++ "'"
  | .arr xs => "[" ++ String.intercalate ", " (pyReprList xs) ++ "]"
  | .obj fs => "\x7b" ++ String.intercalate ", " (pyReprFields fs) ++ "\x7d"

def pyReprList : List Json → List String
  | [] => []
  | x :: xs => pyRepr x :: pyReprList xs

def pyReprFields : List (String × Json) → List String
  | [] => []
  | p :: ps => ("'" ++ p.1 ++ "': " ++ pyRepr p.2) :: pyReprFields ps

end

/-- Python `str(v)` as used by f-string interpolation. -/
def pyStr : Json → String
  | .str s => s
  | v => pyRepr v

/-- Python `s.title()` restricted to ASCII letters: uppercase each letter that does
not follow a letter, lowercase the others. -/
def pyTitleAux : List Char → Bool → List Char
  | [], _ => []
  | c :: rest, prevAlpha =>
    (if c.isAlpha then (if prevAlpha then c.toLower else c.toUpper) else c)
      :: pyTitleAux rest c.isAlpha

def pyTitle (s : String) : String :=
  String.mk (pyTitleAux s.data false)

/-- Core of `s.replace(old, '')`: remove every (non-overlapping, leftmost)
occurrence of the non-empty pattern `h :: t`. Each step consumes at least one
character, so any fuel of at least the list's length is enough. -/
def replaceDropAux (h : Char) (t : List Char) : Nat → List Char → List Char
  | 0, l => l
  | _, [] => []
  | fuel + 1, c :: rest =>
    if (h :: t).isPrefixOf (c :: rest) then replaceDropAux h t fuel (rest.drop t.length)
    else c :: replaceDropAux h t fuel rest

/-- Python `s.replace(old, '')`: removes ALL occurrences of `old`
(an empty `old` leaves `s` unchanged, as in CPython with new text ''). -/
def pyReplaceToEmpty (s old : String) : String :=
  match old.data with
  | [] => s
  | h :: t => String.mk (replaceDropAux h t s.data.length s.data)

/-- utils.escape_markdown's character class, literally
`_*[]()~`>#+-=|{}.!` (braces written as escapes). -/
def escapeChars : String := "_*[]()~`>#+-=|\x7b\x7d.!"

/-- utils.escape_markdown: backslash-escape every character of the
MarkdownV2 metacharacter class, pass everything else through. -/
def escape_markdown (text : String) : String :=
  if text == "" then ""
  else String.mk (text.data.foldl
    (fun acc c => acc ++ (if escapeChars.data.contains c then ['\\', c] else [c])) [])

/-- Substring test helper: does `needle` occur (contiguously) in the haystack? -/
def strContainsAux (needle : List Char) : List Char → Bool
  | [] => needle.isEmpty
  | c :: rest => needle.isPrefixOf (c :: rest) || strContainsAux needle rest

/-- Python `needle in hay` for strings. -/
def strContains (hay needle : String) : Bool :=
  strContainsAux needle.data hay.data

/-! ### SHA-256 and HMAC-SHA256 (hashlib.sha256 / hmac.new), bytes as Nat < 256 -/

def w32 (x : Nat) : Nat := x % 4294967296

def wadd (a b : Nat) : Nat := (a + b) % 4294967296

def rotr (n x : Nat) : Nat := ((x >>> n) ||| (x <<< (32 - n))) % 4294967296

/-- The upper-case Sigma-0 function of FIPS 180-4. -/
def sumRot0 (x : Nat) : Nat := rotr 2 x ^^^ rotr 13 x ^^^ rotr 22 x

/-- The upper-case Sigma-1 function of FIPS 180-4. -/
def sumRot1 (x : Nat) : Nat := rotr 6 x ^^^ rotr 11 x ^^^ rotr 25 x

/-- The lower-case sigma-0 function of FIPS 180-4. -/
def mixRot0 (x : Nat) : Nat := rotr 7 x ^^^ rotr 18 x ^^^ (x >>> 3)

/-- The lower-case sigma-1 function of FIPS 180-4. -/
def mixRot1 (x : Nat) : Nat := rotr 17 x ^^^ rotr 19 x ^^^ (x >>> 10)

/-- The choice function Ch, with the complement of x written as a xor mask. -/
def chW (x y z : Nat) : Nat := (x &&& y) ^^^ ((x ^^^ 4294967295) &&& z)

/-- The majority function Maj. -/
def majW (x y z : Nat) : Nat := (x &&& y) ^^^ (x &&& z) ^^^ (y &&& z)

/-- The 64 SHA-256 round constants, written in decimal. -/
def shaK : List Nat :=
  [1116352408, 1899447441, 3049323471, 3921009573, 961987163,
   1508970993, 2453635748, 2870763221, 3624381080, 310598401,
   607225278, 1426881987, 1925078388, 2162078206, 2614888103,
   3248222580, 3835390401, 4022224774, 264347078, 604807628,
   770255983, 1249150122, 1555081692, 1996064986, 2554220882,
   2821834349, 2952996808, 3210313671, 3336571891, 3584528711,
   113926993, 338241895, 666307205, 773529912, 1294757372,
   1396182291, 1695183700, 1986661051, 2177026350, 2456956037,
   2730485921, 2820302411, 3259730800, 3345764771, 3516065817,
   3600352804, 4094571909, 275423344, 430227734, 506948616,
   659060556, 883997877, 958139571, 1322822218, 1537002063,
   1747873779, 1955562222, 2024104815, 2227730452, 2361852424,
   2428436474, 2756734187, 3204031479, 3329325298]

/-- The eight SHA-256 initial hash words, written in decimal. -/
def shaH0 : List Nat :=
  [1779033703, 3144134277, 1013904242, 2773480762,
   1359893119, 2600822924, 528734635, 1541459225]

/-- One message-schedule extension step: append w[t] for t = current length. -/
def scheduleStep (acc : List Nat) : List Nat :=
  let t := acc.length
  acc ++ [wadd (wadd (mixRot1 (acc.getD (t - 2) 0)) (acc.getD (t - 7) 0))
               (wadd (mixRot0 (acc.getD (t - 15) 0)) (acc.getD (t - 16) 0))]

/-- Extend the 16 block words to the 64 schedule words. -/
def msgSchedule (ws : List Nat) : List Nat :=
  (List.range 48).foldl (fun acc _ => scheduleStep acc) ws

/-- One SHA-256 compression round; the state is [a,b,c,d,e,f,g,h]. -/
def compressStep (st : List Nat) (wk : Nat × Nat) : List Nat :=
  match st with
  | [a, b, c, d, e, f, g, h] =>
    let t1 := wadd h (wadd (sumRot1 e) (wadd (chW e f g) (wadd wk.1 wk.2)))
    let t2 := wadd (sumRot0 a) (majW a b c)
    [wadd t1 t2, a, b, c, wadd d t1, e, f, g]
  | _ => st

/-- Process one 16-word block. -/
def sha256Block (hs : List Nat) (block : List Nat) : List Nat :=
  let st := ((msgSchedule block).zip shaK).foldl compressStep hs
  List.zipWith wadd hs st

/-- Big-endian 8-byte encoding of the bit length. -/
def be64 (n : Nat) : List Nat :=
  [(n >>> 56) % 256, (n >>> 48) % 256, (n >>> 40) % 256, (n >>> 32) % 256,
   (n >>> 24) % 256, (n >>> 16) % 256, (n >>> 8) % 256, n % 256]

/-- SHA-256 padding: 0x80, zeros to 56 mod 64, then the 64-bit bit length. -/
def padMsg (msg : List Nat) : List Nat :=
  msg ++ [128] ++ List.replicate ((119 - (msg.length % 64)) % 64) 0
      ++ be64 (8 * msg.length)

def bytesToWords : List Nat → List Nat
  | b1 :: b2 :: b3 :: b4 :: rest =>
    (((b1 * 256 + b2) * 256 + b3) * 256 + b4) :: bytesToWords rest
  | _ => []

/-- Split into 64-byte blocks; each step consumes 64 bytes, so fuel equal to
the list's length always suffices. -/
def chunks64Fuel : Nat → List Nat → List (List Nat)
  | 0, _ => []
  | _, [] => []
  | fuel + 1, c :: rest => ((c :: rest).take 64) :: chunks64Fuel fuel (rest.drop 63)

def chunks64 (l : List Nat) : List (List Nat) := chunks64Fuel l.length l

/-- hashlib.sha256(msg).digest() as a list of byte values. -/
def sha256 (msg : List Nat) : List Nat :=
  let hFinal := (chunks64 (padMsg msg)).foldl
      (fun hs b => sha256Block hs (bytesToWords b)) shaH0
  hFinal.foldl
    (fun acc w => acc ++ [(w >>> 24) % 256, (w >>> 16) % 256, (w >>> 8) % 256, w % 256]) []

/-- hmac.new(key, msg, hashlib.sha256).digest(). -/
def hmacSha256 (key msg : List Nat) : List Nat :=
  let k0 := if key.length > 64 then sha256 key else key
  let kPad := k0 ++ List.replicate (64 - k0.length) 0
  sha256 ((kPad.map (fun b => b ^^^ 92)) ++ sha256 ((kPad.map (fun b => b ^^^ 54)) ++ msg))

def hexChar (n : Nat) : Char := "0123456789abcdef".data.getD n '0'

/-- Python `.hexdigest()`: lowercase hex rendering of a byte list. -/
def hexDigest (bs : List Nat) : String :=
  String.mk (bs.foldl (fun acc b => acc ++ [hexChar (b / 16 % 16), hexChar (b % 16)]) [])

/-- UTF-8 encoding of one character (str.encode('utf-8'), per char). -/
def utf8EncodeCharNat (c : Char) : List Nat :=
  let n := c.toNat
  if n < 128 then [n]
  else if n < 2048 then [192 ||| (n >>> 6), 128 ||| (n &&& 63)]
  else if n < 65536 then
    [224 ||| (n >>> 12), 128 ||| ((n >>> 6) &&& 63), 128 ||| (n &&& 63)]
  else
    [240 ||| (n >>> 18), 128 ||| ((n >>> 12) &&& 63),
     128 ||| ((n >>> 6) &&& 63), 128 ||| (n &&& 63)]

/-- Python `s.encode('utf-8')` as a byte list. -/
def strBytes (s : String) : List Nat :=
  s.data.foldl (fun acc c => acc ++ utf8EncodeCharNat c) []

/-- hmac.compare_digest on two str arguments: length check, then an
accumulated OR of the XORs of corresponding character codes (constant-time
in CPython; functionally an equality test). -/
def compare_digest (a b : String) : Bool :=
  (a.data.length == b.data.length) &&
  (((List.zipWith (fun x y => Char.toNat x ^^^ Char.toNat y) a.data b.data).foldl
      (fun acc v => acc ||| v) 0) == 0)

/-- WebhookHandler._verify_signature (src/webhook_handler.py:40-67).
`self.config.webhook_secret` is the `webhook_secret` argument. -/
def verify_signature (webhook_secret : String) (payload : List Nat)
    (signature : String) : Bool :=
  if webhook_secret == "" then true
  else if signature == "" then false
  else
    compare_digest (hexDigest (hmacSha256 (strBytes webhook_secret) payload))
                   (pyReplaceToEmpty signature "sha256=")

/-! ### Event processors (src/webhook_handler.py:102-322)

Each `_process_*_event` method wraps its body in `try/except` returning `""`;
the `*_body` definitions below are the bodies (which can raise), and
`pyCatch` is the `except Exception: return ""` wrapper. -/

/-- Python `"commit" if commit_count == 1 else "commits"`. -/
def commitWord (n : Nat) : String := if n == 1 then "commit" else "commits"

/-- The header lines of the push message (src/webhook_handler.py:151-154). -/
def pushHeaderStr (n : Nat) (repoName branch pusherName : String) : String :=
  "📝 **New " ++ commitWord n ++ " to " ++ repoName ++ "**\n\n" ++
  "🌿 Branch: `" ++ branch ++ "`\n" ++
  "👤 Pusher: " ++ pusherName ++ "\n" ++
  "📊 " ++ toString n ++ " " ++ commitWord n ++ "\n\n"

/-- One iteration of the commit loop (src/webhook_handler.py:157-163):
the two lines appended for a single commit. -/
def commit_entry (commit : Json) : Except PyErr String := do
  let msgJ ← dictGet commit "message" (.str "No message")
  let authorObj ← dictGet commit "author" (.obj [])
  let authorName ← dictGet authorObj "name" (.str "Unknown")
  let idJ ← dictGet commit "id" (.str "")
  let idSliced ← pySliceTake 7 idJ
  pure ("🔸 **" ++ pyStr msgJ ++ "**\n" ++
        "👤 " ++ pyStr authorName ++ " • `" ++ pyStr idSliced ++ "`\n\n")

/-- The loop `for commit in commits[:3]: message += ...` as a string-accumulating
loop; an exception in any iteration aborts the whole loop. -/
def pushLoop : List Json → String → Except PyErr String
  | [], acc => .ok acc
  | c :: rest, acc =>
    match commit_entry c with
    | .error e => .error e
    | .ok e => pushLoop rest (acc ++ e)

/-- Body of WebhookHandler._process_push_event (src/webhook_handler.py:133-171),
before its catch-all `except`. -/
def process_push_body (data : Json) : Except PyErr String := do
  let repository ← dictGet data "repository" (.obj [])
  let pusher ← dictGet data "pusher" (.obj [])
  let commitsJ ← dictGet data "commits" (.arr [])
  let refJ ← dictGet data "ref" (.str "")
  let repoName ← dictGet repository "full_name" (.str "Unknown")
  let pusherName ← dictGet pusher "name" (.str "Unknown")
  -- `ref.replace('refs/heads/', '') if ref.startswith('refs/heads/') else ref`:
  -- calling .startswith on a non-str raises AttributeError
  let branch ← match refJ with
    | .str s =>
      pure (if ("refs/heads/".data).isPrefixOf s.data then pyReplaceToEmpty s "refs/heads/" else s)
    | _ => Except.error PyErr.attributeError
  if pyTruthy commitsJ then do
    let commitCount ← pyLen commitsJ
    let headerMsg := pushHeaderStr commitCount (pyStr repoName) branch (pyStr pusherName)
    let sliced ← pySliceTake 3 commitsJ
    let iter ← pyIter sliced
    let afterLoop ← pushLoop iter headerMsg
    let total ← pyLen commitsJ
    let withTrailer :=
      if total > 3 then afterLoop ++ "... and " ++ toString (total - 3) ++ " more commits\n\n"
      else afterLoop
    let repoUrl ← dictGet repository "html_url" (.str "")
    pure (withTrailer ++ "🔗 [View Repository](" ++ pyStr repoUrl ++ ")")
  else
    pure ""

/-- Body of WebhookHandler._process_pull_request_event
(src/webhook_handler.py:177-205). A non-str action fails the membership test
`action in ['opened', 'closed', 'merged']` and yields `""`. -/
def process_pull_request_body (data : Json) : Except PyErr String := do
  let actionJ ← dictGet data "action" (.str "")
  let pull_request ← dictGet data "pull_request" (.obj [])
  let repository ← dictGet data "repository" (.obj [])
  match actionJ with
  | .str action =>
    if action = "opened" ∨ action = "closed" ∨ action = "merged" then do
      let repoName ← dictGet repository "full_name" (.str "Unknown")
      let prTitle ← dictGet pull_request "title" (.str "No title")
      let prNumber ← dictGet pull_request "number" (.num 0)
      let prUserObj ← dictGet pull_request "user" (.obj [])
      let prUser ← dictGet prUserObj "login" (.str "Unknown")
      let prUrl ← dictGet pull_request "html_url" (.str "")
      let actionEmoji :=
        if action = "opened" then "🟢"
        else if action = "closed" then "🔴"
        else if action = "merged" then "🟣" else "📋"
      pure (actionEmoji ++ " **Pull Request " ++ pyTitle action ++ "**\n\n" ++
        "📦 Repository: " ++ pyStr repoName ++ "\n" ++
        "🔧 PR #" ++ pyStr prNumber ++ ": " ++ pyStr prTitle ++ "\n" ++
        "👤 Author: " ++ pyStr prUser ++ "\n\n" ++
        "🔗 [View Pull Request](" ++ pyStr prUrl ++ ")")
    else pure ""
  | _ => pure ""

/-- Body of WebhookHandler._process_issues_event (src/webhook_handler.py:211-239). -/
def process_issues_body (data : Json) : Except PyErr String := do
  let actionJ ← dictGet data "action" (.str "")
  let issue ← dictGet data "issue" (.obj [])
  let repository ← dictGet data "repository" (.obj [])
  match actionJ with
  | .str action =>
    if action = "opened" ∨ action = "closed" ∨ action = "reopened" then do
      let repoName ← dictGet repository "full_name" (.str "Unknown")
      let issueTitle ← dictGet issue "title" (.str "No title")
      let issueNumber ← dictGet issue "number" (.num 0)
      let issueUserObj ← dictGet issue "user" (.obj [])
      let issueUser ← dictGet issueUserObj "login" (.str "Unknown")
      let issueUrl ← dictGet issue "html_url" (.str "")
      let actionEmoji :=
        if action = "opened" then "🟢"
        else if action = "closed" then "🔴"
        else if action = "reopened" then "🟡" else "🐛"
      pure (actionEmoji ++ " **Issue " ++ pyTitle action ++ "**\n\n" ++
        "📦 Repository: " ++ pyStr repoName ++ "\n" ++
        "🐛 Issue #" ++ pyStr issueNumber ++ ": " ++ pyStr issueTitle ++ "\n" ++
        "👤 Author: " ++ pyStr issueUser ++ "\n\n" ++
        "🔗 [View Issue](" ++ pyStr issueUrl ++ ")")
    else pure ""
  | _ => pure ""

/-- Body of WebhookHandler._process_star_event (src/webhook_handler.py:245-266).
`if action != 'created': return ""` — any value other than the str 'created'
(including non-str values) yields `""`. -/
def process_star_body (data : Json) : Except PyErr String := do
  let actionJ ← dictGet data "action" (.str "")
  let repository ← dictGet data "repository" (.obj [])
  let sender ← dictGet data "sender" (.obj [])
  match actionJ with
  | .str "created" => do
    let repoName ← dictGet repository "full_name" (.str "Unknown")
    let starCount ← dictGet repository "stargazers_count" (.num 0)
    let userName ← dictGet sender "login" (.str "Unknown")
    let repoUrl ← dictGet repository "html_url" (.str "")
    pure ("⭐ **New Star!**\n\n" ++
      "📦 Repository: " ++ pyStr repoName ++ "\n" ++
      "👤 Starred by: " ++ pyStr userName ++ "\n" ++
      "📊 Total stars: " ++ pyStr starCount ++ "\n\n" ++
      "🔗 [View Repository](" ++ pyStr repoUrl ++ ")")
  | _ => pure ""

/-- Body of WebhookHandler._process_fork_event (src/webhook_handler.py:272-290);
no action filter. -/
def process_fork_body (data : Json) : Except PyErr String := do
  let repository ← dictGet data "repository" (.obj [])
  let forkee ← dictGet data "forkee" (.obj [])
  let sender ← dictGet data "sender" (.obj [])
  let repoName ← dictGet repository "full_name" (.str "Unknown")
  let forkCount ← dictGet repository "forks_count" (.num 0)
  let userName ← dictGet sender "login" (.str "Unknown")
  let forkUrl ← dictGet forkee "html_url" (.str "")
  pure ("🍴 **New Fork!**\n\n" ++
    "📦 Repository: " ++ pyStr repoName ++ "\n" ++
    "👤 Forked by: " ++ pyStr userName ++ "\n" ++
    "📊 Total forks: " ++ pyStr forkCount ++ "\n\n" ++
    "🔗 [View Fork](" ++ pyStr forkUrl ++ ")")

/-- Body of WebhookHandler._process_release_event (src/webhook_handler.py:296-318).
`release.get('name', release.get('tag_name', 'Unknown'))`: the inner get is
evaluated first (eager arguments). -/
def process_release_body (data : Json) : Except PyErr String := do
  let actionJ ← dictGet data "action" (.str "")
  let release ← dictGet data "release" (.obj [])
  let repository ← dictGet data "repository" (.obj [])
  match actionJ with
  | .str "published" => do
    let repoName ← dictGet repository "full_name" (.str "Unknown")
    let fallback ← dictGet release "tag_name" (.str "Unknown")
    let releaseName ← dictGet release "name" fallback
    let releaseTag ← dictGet release "tag_name" (.str "Unknown")
    let releaseUrl ← dictGet release "html_url" (.str "")
    let authorObj ← dictGet release "author" (.obj [])
    let authorName ← dictGet authorObj "login" (.str "Unknown")
    pure ("🚀 **New Release!**\n\n" ++
      "📦 Repository: " ++ pyStr repoName ++ "\n" ++
      "🏷️ Release: " ++ pyStr releaseName ++ " (" ++ pyStr releaseTag ++ ")\n" ++
      "👤 Author: " ++ pyStr authorName ++ "\n\n" ++
      "🔗 [View Release](" ++ pyStr releaseUrl ++ ")")
  | _ => pure ""

/-- Models `except Exception as e: ... return ""` — every internal error becomes `""`. -/
def pyCatch : Except PyErr String → String
  | .ok s => s
  | .error _ => ""

def process_push_event (data : Json) : String := pyCatch (process_push_body data)

def process_pull_request_event (data : Json) : String := pyCatch (process_pull_request_body data)

def process_issues_event (data : Json) : String := pyCatch (process_issues_body data)

def process_star_event (data : Json) : String := pyCatch (process_star_body data)

def process_fork_event (data : Json) : String := pyCatch (process_fork_body data)

def process_release_event (data : Json) : String := pyCatch (process_release_body data)

/-- WebhookHandler._process_event (src/webhook_handler.py:102-131): dispatch on
the event type; unknown types yield `""`. Its own `try/except` surrounds calls
that already catch internally, so it adds nothing in the embedding. -/
def process_event (event_type : String) (data : Json) : String :=
  if event_type == "push" then process_push_event data
  else if event_type == "pull_request" then process_pull_request_event data
  else if event_type == "issues" then process_issues_event data
  else if event_type == "star" then process_star_event data
  else if event_type == "fork" then process_fork_event data
  else if event_type == "release" then process_release_event data
  else ""

/-- The same dispatch applied to the raw (catch-free) processor bodies: the
classification/formatting pipeline with internal errors made visible. -/
def process_event_raw (event_type : String) (data : Json) : Except PyErr String :=
  if event_type == "push" then process_push_body data
  else if event_type == "pull_request" then process_pull_request_body data
  else if event_type == "issues" then process_issues_body data
  else if event_type == "star" then process_star_body data
  else if event_type == "fork" then process_fork_body data
  else if event_type == "release" then process_release_body data
  else Except.ok ""

/-- The observable outcome of WebhookHandler.handle_webhook: HTTP status,
response body, and whether the notification handoff
(`self._send_notification(message)`) was performed. -/
structure HandleResult where
  status : Nat
  body : Json
  notified : Bool

/-- WebhookHandler.handle_webhook (src/webhook_handler.py:69-100).
`parsed` is the outcome of `json.loads(payload)` — `none` models
JSONDecodeError (HTTP 400); JSON text parsing itself is outside the
embedding, so the would-be outcome is passed as a parameter. The
notification handoff is gated by `if message and self.config.bot_admin_id`.
Nothing after signature verification can raise in the embedding (the
processors catch internally, `_send_notification` catches everything), so
the outer `except` (HTTP 500) has nothing to catch. -/
def handle_webhook (webhook_secret bot_admin_id : String) (payload : List Nat)
    (signature event_type : String) (parsed : Option Json) : HandleResult :=
  if verify_signature webhook_secret payload signature = false then
    ⟨403, .obj [("error", .str "Invalid signature")], false⟩
  else
    match parsed with
    | none => ⟨400, .obj [("error", .str "Invalid JSON")], false⟩
    | some data =>
      let message := process_event event_type data
      ⟨200, .obj [("status", .str "success")],
       pyTruthy (.str message) && pyTruthy (.str bot_admin_id)⟩

/-- Modelled from the spec's words, for comparison in claim C6 only: strip a
single leading "sha256=" prefix from the signature header and leave the
remainder verbatim. -/
def specStripLeadingSha256 (sig : String) : String :=
  if ("sha256=".data).isPrefixOf sig.data then String.mk (sig.data.drop 7) else sig

/-- The commit entries of the first three commits, in payload order (the
take-and-map view of `pushLoop`, used to state the commit cap). -/
def mapEntries : List Json → Except PyErr (List String)
  | [] => .ok []
  | c :: rest =>
    match commit_entry c with
    | .error e => .error e
    | .ok e =>
      match mapEntries rest with
      | .error e2 => .error e2
      | .ok es => .ok (e :: es)

/-- Concatenation of a list of message fragments. -/
def strJoin : List String → String
  | [] => ""
  | s :: rest => s ++ strJoin rest

/-! ### Helper lemmas -/

theorem lorEqZero (a b : Nat) : a ||| b = 0 ↔ a = 0 ∧ b = 0 := by
  constructor
  · intro h
    have hh : ∀ i, (a.testBit i || b.testBit i) = false := by
      intro i
      have hb := congrArg (fun n => Nat.testBit n i) h
      simpa only [Nat.testBit_or, Nat.zero_testBit] using hb
    constructor
    · apply Nat.eq_of_testBit_eq
      intro i
      have := hh i
      simp only [Bool.or_eq_false_iff] at this
      simp [this.1]
    · apply Nat.eq_of_testBit_eq
      intro i
      have := hh i
      simp only [Bool.or_eq_false_iff] at this
      simp [this.2]
  · rintro ⟨rfl, rfl⟩
    rfl

theorem foldlLorEqZero (l : List Nat) (acc : Nat) :
    l.foldl (fun a v => a ||| v) acc = 0 ↔ acc = 0 ∧ ∀ x ∈ l, x = 0 := by
  induction l generalizing acc with
  | nil => simp [List.foldl_nil]
  | cons x xs ih =>
    simp only [List.foldl_cons, ih, lorEqZero, List.mem_cons]
    constructor
    · rintro ⟨⟨h1, h2⟩, h3⟩
      exact ⟨h1, fun y hy => hy.elim (fun e => e ▸ h2) (h3 y)⟩
    · rintro ⟨h1, h2⟩
      exact ⟨⟨h1, h2 x (Or.inl rfl)⟩, fun y hy => h2 y (Or.inr hy)⟩

theorem charXorZero {c d : Char} (h : Char.toNat c ^^^ Char.toNat d = 0) : c = d := by
  have hn : Char.toNat c = Char.toNat d := Nat.xor_eq_zero.mp h
  have := congrArg Char.ofNat hn
  simpa only [Char.ofNat_toNat] using this

theorem zipXorAllZero : ∀ {l1 l2 : List Char},
    l1.length = l2.length →
    (∀ x ∈ List.zipWith (fun x y => Char.toNat x ^^^ Char.toNat y) l1 l2, x = 0) →
    l1 = l2
  | [], [], _, _ => rfl
  | [], _ :: _, hlen, _ => by simp at hlen
  | _ :: _, [], hlen, _ => by simp at hlen
  | c :: cs, d :: ds, hlen, hz => by
    have hc : c = d := charXorZero (hz _ (by simp))
    have hlen' : cs.length = ds.length := by simpa using hlen
    have hz' : ∀ x ∈ List.zipWith (fun x y => Char.toNat x ^^^ Char.toNat y) cs ds, x = 0 := by
      intro x hx
      exact hz x (by simpa using Or.inr hx)
    rw [hc, zipXorAllZero hlen' hz']

theorem zipXorSelf (l : List Char) :
    ∀ x ∈ List.zipWith (fun x y => Char.toNat x ^^^ Char.toNat y) l l, x = 0 := by
  induction l with
  | nil => simp
  | cons c cs ih =>
    intro x hx
    simp only [List.zipWith_cons_cons, List.mem_cons] at hx
    rcases hx with h | h
    · simpa [Nat.xor_self] using h
    · exact ih x h

/-- hmac.compare_digest on strings is functionally plain equality. -/
theorem compareDigestIff (a b : String) : compare_digest a b = true ↔ a = b := by
  unfold compare_digest
  simp only [Bool.and_eq_true, beq_iff_eq]
  constructor
  · rintro ⟨hlen, hfold⟩
    have hz := (foldlLorEqZero _ 0).mp hfold
    have hd : a.data = b.data := zipXorAllZero hlen hz.2
    cases a
    cases b
    exact congrArg String.mk hd
  · rintro rfl
    exact ⟨rfl, (foldlLorEqZero _ 0).mpr ⟨rfl, zipXorSelf a.data⟩⟩

theorem commitWordEq (n : Nat) :
    commitWord n = if n = 1 then "commit" else "commits" := by
  by_cases h : n = 1 <;> simp [commitWord, h]

theorem mapEntriesLength : ∀ (cs : List Json) (es : List String),
    mapEntries cs = .ok es → es.length = cs.length := by
  intro cs
  induction cs with
  | nil =>
    intro es h
    simp only [mapEntries] at h
    cases h
    rfl
  | cons c rest ih =>
    intro es h
    simp only [mapEntries] at h
    cases hc : commit_entry c with
    | error e => rw [hc] at h; cases h
    | ok e =>
      rw [hc] at h
      cases hr : mapEntries rest with
      | error e2 => rw [hr] at h; cases h
      | ok es' =>
        rw [hr] at h
        cases h
        simp [ih es' hr]

theorem dictGetObj (fields : List (String × Json)) (key : String) (dflt : Json) :
    dictGet (.obj fields) key dflt = .ok (getOr fields key dflt) := rfl

theorem pushLoopEq (cs : List Json) (acc : String) :
    pushLoop cs acc = (mapEntries cs).map (fun es => acc ++ strJoin es) := by
  induction cs generalizing acc with
  | nil => simp [pushLoop, mapEntries, strJoin, Except.map]
  | cons c rest ih =>
    simp only [pushLoop, mapEntries]
    cases hc : commit_entry c with
    | error e => simp [Except.map]
    | ok e =>
      dsimp only
      rw [ih]
      cases hr : mapEntries rest with
      | error e2 => simp [Except.map]
      | ok es => simp [Except.map, strJoin, String.append_assoc]

/-! ### Concrete payloads used by counterexamples and witnesses -/

/-- A star event payload (spec §8 scenario 7). -/
def dStarW : Json :=
  .obj [("action", .str "created"),
        ("repository", .obj [("full_name", .str "a/b"), ("stargazers_count", .num 5),
                             ("html_url", .str "https://x")]),
        ("sender", .obj [("login", .str "u")])]

/-- A push payload whose `repository` value is a number, so
`repository.get('full_name', 'Unknown')` raises AttributeError. -/
def dPushBad : Json := .obj [("repository", .num 5)]

/-- A pull_request 'opened' payload with every optional field absent. -/
def dPROpen0 : Json := .obj [("action", .str "opened")]

/-- The message the code produces for `dPROpen0`. -/
def msgPROpen0 : String :=
  "🟢 **Pull Request Opened**\n\n📦 Repository: Unknown\n🔧 PR #0: No title\n👤 Author: Unknown\n\n🔗 [View Pull Request]()"

/-- A pull_request 'opened' payload whose title "a*b" contains the markup
metacharacter '*'. -/
def dPRStar : Json :=
  .obj [("action", .str "opened"),
        ("pull_request", .obj [("title", .str "a*b"), ("number", .num 7),
                               ("user", .obj [("login", .str "u")]),
                               ("html_url", .str "http://x")]),
        ("repository", .obj [("full_name", .str "o/r")])]

/-- The message the code produces for `dPRStar`: the title appears verbatim. -/
def msgPRStar : String :=
  "🟢 **Pull Request Opened**\n\n📦 Repository: o/r\n🔧 PR #7: a*b\n👤 Author: u\n\n🔗 [View Pull Request](http://x)"

/-- hex(HMAC-SHA256("k", b"")), as computed by `hexDigest ∘ hmacSha256`. -/
def digestKEmpty : String :=
  "8bb990c40a7d61cb97597a942125025be50ac8beb74436e3735b98893a7f6620"

/-- A commit object for the C5 witness payload. -/
def pushWCommit (msg author sha : String) : Json :=
  .obj [("message", .str msg), ("author", .obj [("name", .str author)]), ("id", .str sha)]

/-- Five commits, in payload order (spec §8 scenario 4). -/
def pushWCommits : List Json :=
  [pushWCommit "m1" "a1" "1111111aaa", pushWCommit "m2" "a2" "2222222bbb",
   pushWCommit "m3" "a3" "3333333ccc", pushWCommit "m4" "a4" "4444444ddd",
   pushWCommit "m5" "a5" "5555555eee"]

/-- A push payload with five commits. -/
def pushW : Json :=
  .obj [("repository", .obj [("full_name", .str "o/r"), ("html_url", .str "http://r")]),
        ("pusher", .obj [("name", .str "p")]),
        ("ref", .str "refs/heads/main"),
        ("commits", .arr pushWCommits)]

/-- The message the code produces for `pushW`: three entries, then the
"2 more commits" trailer. -/
def pushWMsg : String :=
  "📝 **New commits to o/r**\n\n🌿 Branch: `main`\n👤 Pusher: p\n📊 5 commits\n\n🔸 **m1**\n👤 a1 • `1111111`\n\n🔸 **m2**\n👤 a2 • `2222222`\n\n🔸 **m3**\n👤 a3 • `3333333`\n\n... and 2 more commits\n\n🔗 [View Repository](http://r)"

set_option maxRecDepth 10000

/-! ### Claim theorems -/

/-- C9 — Empty secret bypass: for every body and every signature header value
(including the empty string), `_verify_signature` with an empty/unset secret
returns true. -/
theorem c9_empty_secret_bypass (payload : List Nat) (signature : String) :
    verify_signature "" payload signature = true := rfl

/-- C8 — Missing signature rejection: when the secret is configured
(non-empty) and the signature header is empty, `_verify_signature` returns
false and `handle_webhook` answers 403 with an error body; the response is the
same whatever the JSON parse of the payload would have been (the `parsed`
argument is arbitrary), so the payload is never consulted. -/
theorem c8_missing_signature_rejection (webhook_secret bot_admin_id : String)
    (payload : List Nat) (event_type : String) (parsed : Option Json)
    (hs : webhook_secret ≠ "") :
    verify_signature webhook_secret payload "" = false ∧
    handle_webhook webhook_secret bot_admin_id payload "" event_type parsed =
      ⟨403, .obj [("error", .str "Invalid signature")], false⟩ := by
  have h1 : (webhook_secret == "") = false := beq_false_of_ne hs
  have hv : verify_signature webhook_secret payload "" = false := by
    unfold verify_signature
    simp [h1]
  refine ⟨hv, ?_⟩
  unfold handle_webhook
  rw [hv]
  simp

/-- Witness for C8 at the concrete input: secret "k", body [1], event "push",
and a payload whose JSON parse would be the non-dict 7. -/
theorem c8_missing_signature_rejection_witness :
    verify_signature "k" [1] "" = false ∧
    handle_webhook "k" "admin" [1] "" "push" (some (Json.num 7)) =
      ⟨403, .obj [("error", .str "Invalid signature")], false⟩ :=
  c8_missing_signature_rejection "k" "admin" [1] "push" (some (Json.num 7)) (by decide)

/-- C10 — Admin-id gating of delivery: for every verified, JSON-parseable
request, the endpoint answers 200, and the notification handoff is performed
iff the formatted message is non-empty AND the configured bot_admin_id is
non-empty (`if message and self.config.bot_admin_id`); in particular an empty
bot_admin_id suppresses delivery even for a formatted event. -/
theorem c10_admin_gating (webhook_secret bot_admin_id : String) (payload : List Nat)
    (signature event_type : String) (data : Json)
    (hv : verify_signature webhook_secret payload signature = true) :
    (handle_webhook webhook_secret bot_admin_id payload signature event_type (some data)).status = 200 ∧
    ((handle_webhook webhook_secret bot_admin_id payload signature event_type (some data)).notified = true ↔
      (process_event event_type data ≠ "" ∧ bot_admin_id ≠ "")) := by
  unfold handle_webhook
  rw [hv]
  simp [pyTruthy]

/-- Witness for C10: empty admin id, star event that formats to a non-empty
message — status 200 and the gating equivalence hold at this concrete input
(so nothing is dispatched there, since the admin id is empty). -/
theorem c10_admin_gating_witness :
    (handle_webhook "" "" [] "" "star" (some dStarW)).status = 200 ∧
    ((handle_webhook "" "" [] "" "star" (some dStarW)).notified = true ↔
      (process_event "star" dStarW ≠ "" ∧ ("" : String) ≠ "")) :=
  c10_admin_gating "" "" [] "" "star" dStarW rfl

/-- C3 counterexample: a verified, JSON-parseable push payload whose
`repository` value is the number 5 makes the classification body raise
(AttributeError at `repository.get`), yet `handle_webhook` returns 200, not
500 — the error is swallowed into `""` by the processor's own `except`. -/
theorem c3_counterexample :
    process_event_raw "push" dPushBad = Except.error PyErr.attributeError ∧
    handle_webhook "" "" [] "" "push" (some dPushBad) =
      ⟨200, .obj [("status", .str "success")], false⟩ ∧
    (handle_webhook "" "" [] "" "push" (some dPushBad)).status ≠ 500 :=
  ⟨rfl, rfl, by decide⟩

/-- C3 amended: for every request that passes signature verification and
whose body parses as JSON, `handle_webhook` returns 200 — also when an
internal error occurs while classifying or formatting (such errors are caught
inside the processors and degrade to an empty message; the 500 branch is
unreachable from classification/formatting errors). -/
theorem c3_verified_parse_status_200 (webhook_secret bot_admin_id : String)
    (payload : List Nat) (signature event_type : String) (data : Json)
    (hv : verify_signature webhook_secret payload signature = true) :
    (handle_webhook webhook_secret bot_admin_id payload signature event_type (some data)).status = 200 := by
  unfold handle_webhook
  rw [hv]
  simp

/-- Witness for the amended C3 at a concrete unverified-secret input. -/
theorem c3_verified_parse_status_200_witness :
    (handle_webhook "" "admin" [] "" "ping" (some (Json.obj []))).status = 200 :=
  c3_verified_parse_status_200 "" "admin" [] "" "ping" (Json.obj []) rfl

/-- C7 — Classification totality: for every event type string and every JSON
payload, `_process_event` returns the string of the raw classification body
when it succeeds and the empty string (Unhandled) when the body raises a
structural error; in the embedding its type already shows no exception
escapes to the caller. -/
theorem c7_classification_total (event_type : String) (data : Json) :
    process_event event_type data = pyCatch (process_event_raw event_type data) := by
  unfold process_event process_event_raw process_push_event process_pull_request_event
    process_issues_event process_star_event process_fork_event process_release_event
  split_ifs <;> rfl

/-- C4 counterexample: on a pull_request 'opened' payload with all optional
fields absent, classification does NOT substitute the literal "Unknown" for
every absent field: the title defaults to "No title" and the number to 0
(the message reads "PR #0: No title", and "PR #Unknown" does not occur). -/
theorem c4_counterexample :
    process_pull_request_event dPROpen0 = msgPROpen0 ∧
    strContains msgPROpen0 "No title" = true ∧
    strContains msgPROpen0 "PR #0:" = true ∧
    strContains msgPROpen0 "PR #Unknown" = false :=
  ⟨rfl, rfl, rfl, rfl⟩

/-- C4 amended: for every known event type and every payload (dicts of
arbitrary field lists, with the action filter passed and the nested
sub-objects that are consulted being dicts when present), every optional
field's contribution to the message is `getOr fields key default` — the
stored value when the key is present and a fixed, defined default when it is
absent (never null/absence): "Unknown" for names/logins/pusher, "No title"
for titles, "No message" for commit messages, 0 for numbers and counts, ""
for URLs, ids and ref, and for a release name the tag name falling back to
"Unknown". One conjunct per processor: push, commit entry, pull_request,
issues, star, fork, release. -/
theorem c4_amended_defaults :
    (∀ (pd repo pusher : List (String × Json)) (refS : String) (cs : List Json)
        (es : List String),
      getOr pd "repository" (.obj []) = .obj repo →
      getOr pd "pusher" (.obj []) = .obj pusher →
      getOr pd "commits" (.arr []) = .arr cs →
      getOr pd "ref" (.str "") = .str refS →
      cs ≠ [] →
      mapEntries (cs.take 3) = .ok es →
      process_push_body (.obj pd) = .ok
        ((if cs.length > 3 then
            pushHeaderStr cs.length (pyStr (getOr repo "full_name" (.str "Unknown")))
              (if ("refs/heads/".data).isPrefixOf refS.data then
                pyReplaceToEmpty refS "refs/heads/" else refS)
              (pyStr (getOr pusher "name" (.str "Unknown"))) ++ strJoin es
              ++ "... and " ++ toString (cs.length - 3) ++ " more commits\n\n"
          else
            pushHeaderStr cs.length (pyStr (getOr repo "full_name" (.str "Unknown")))
              (if ("refs/heads/".data).isPrefixOf refS.data then
                pyReplaceToEmpty refS "refs/heads/" else refS)
              (pyStr (getOr pusher "name" (.str "Unknown"))) ++ strJoin es)
          ++ "🔗 [View Repository](" ++ pyStr (getOr repo "html_url" (.str "")) ++ ")"))
    ∧
    (∀ (cf af : List (String × Json)) (idS : String),
      getOr cf "author" (.obj []) = .obj af →
      getOr cf "id" (.str "") = .str idS →
      commit_entry (.obj cf) = .ok
        ("🔸 **" ++ pyStr (getOr cf "message" (.str "No message")) ++ "**\n" ++
         "👤 " ++ pyStr (getOr af "name" (.str "Unknown")) ++ " • `" ++
         String.mk (idS.data.take 7) ++ "`\n\n"))
    ∧
    (∀ (pd pr repo user : List (String × Json)) (action : String),
      getOr pd "action" (.str "") = .str action →
      (action = "opened" ∨ action = "closed" ∨ action = "merged") →
      getOr pd "pull_request" (.obj []) = .obj pr →
      getOr pd "repository" (.obj []) = .obj repo →
      getOr pr "user" (.obj []) = .obj user →
      process_pull_request_body (.obj pd) = .ok
        ((if action = "opened" then "🟢"
          else if action = "closed" then "🔴"
          else if action = "merged" then "🟣" else "📋") ++
         " **Pull Request " ++ pyTitle action ++ "**\n\n" ++
         "📦 Repository: " ++ pyStr (getOr repo "full_name" (.str "Unknown")) ++ "\n" ++
         "🔧 PR #" ++ pyStr (getOr pr "number" (.num 0)) ++ ": " ++
         pyStr (getOr pr "title" (.str "No title")) ++ "\n" ++
         "👤 Author: " ++ pyStr (getOr user "login" (.str "Unknown")) ++ "\n\n" ++
         "🔗 [View Pull Request](" ++ pyStr (getOr pr "html_url" (.str "")) ++ ")"))
    ∧
    (∀ (pd iss repo user : List (String × Json)) (action : String),
      getOr pd "action" (.str "") = .str action →
      (action = "opened" ∨ action = "closed" ∨ action = "reopened") →
      getOr pd "issue" (.obj []) = .obj iss →
      getOr pd "repository" (.obj []) = .obj repo →
      getOr iss "user" (.obj []) = .obj user →
      process_issues_body (.obj pd) = .ok
        ((if action = "opened" then "🟢"
          else if action = "closed" then "🔴"
          else if action = "reopened" then "🟡" else "🐛") ++
         " **Issue " ++ pyTitle action ++ "**\n\n" ++
         "📦 Repository: " ++ pyStr (getOr repo "full_name" (.str "Unknown")) ++ "\n" ++
         "🐛 Issue #" ++ pyStr (getOr iss "number" (.num 0)) ++ ": " ++
         pyStr (getOr iss "title" (.str "No title")) ++ "\n" ++
         "👤 Author: " ++ pyStr (getOr user "login" (.str "Unknown")) ++ "\n\n" ++
         "🔗 [View Issue](" ++ pyStr (getOr iss "html_url" (.str "")) ++ ")"))
    ∧
    (∀ (pd repo sender : List (String × Json)),
      getOr pd "action" (.str "") = .str "created" →
      getOr pd "repository" (.obj []) = .obj repo →
      getOr pd "sender" (.obj []) = .obj sender →
      process_star_body (.obj pd) = .ok
        ("⭐ **New Star!**\n\n" ++
         "📦 Repository: " ++ pyStr (getOr repo "full_name" (.str "Unknown")) ++ "\n" ++
         "👤 Starred by: " ++ pyStr (getOr sender "login" (.str "Unknown")) ++ "\n" ++
         "📊 Total stars: " ++ pyStr (getOr repo "stargazers_count" (.num 0)) ++ "\n\n" ++
         "🔗 [View Repository](" ++ pyStr (getOr repo "html_url" (.str "")) ++ ")"))
    ∧
    (∀ (pd repo forkee sender : List (String × Json)),
      getOr pd "repository" (.obj []) = .obj repo →
      getOr pd "forkee" (.obj []) = .obj forkee →
      getOr pd "sender" (.obj []) = .obj sender →
      process_fork_body (.obj pd) = .ok
        ("🍴 **New Fork!**\n\n" ++
         "📦 Repository: " ++ pyStr (getOr repo "full_name" (.str "Unknown")) ++ "\n" ++
         "👤 Forked by: " ++ pyStr (getOr sender "login" (.str "Unknown")) ++ "\n" ++
         "📊 Total forks: " ++ pyStr (getOr repo "forks_count" (.num 0)) ++ "\n\n" ++
         "🔗 [View Fork](" ++ pyStr (getOr forkee "html_url" (.str "")) ++ ")"))
    ∧
    (∀ (pd rel repo author : List (String × Json)),
      getOr pd "action" (.str "") = .str "published" →
      getOr pd "release" (.obj []) = .obj rel →
      getOr pd "repository" (.obj []) = .obj repo →
      getOr rel "author" (.obj []) = .obj author →
      process_release_body (.obj pd) = .ok
        ("🚀 **New Release!**\n\n" ++
         "📦 Repository: " ++ pyStr (getOr repo "full_name" (.str "Unknown")) ++ "\n" ++
         "🏷️ Release: " ++
         pyStr (getOr rel "name" (getOr rel "tag_name" (.str "Unknown"))) ++ " (" ++
         pyStr (getOr rel "tag_name" (.str "Unknown")) ++ ")\n" ++
         "👤 Author: " ++ pyStr (getOr author "login" (.str "Unknown")) ++ "\n\n" ++
         "🔗 [View Release](" ++ pyStr (getOr rel "html_url" (.str "")) ++ ")")) := by
  refine ⟨?_, ?_, ?_, ?_, ?_, ?_, ?_⟩
  · intro pd repo pusher refS cs es hRepo hPusher hCommits hRef hne hes
    have htr : pyTruthy (Json.arr cs) = true := by
      cases cs with
      | nil => exact absurd rfl hne
      | cons _ _ => rfl
    simp only [process_push_body, dictGetObj, hRepo, hPusher, hCommits, hRef,
      Bind.bind, Except.bind, htr, if_true, pyLen, pySliceTake, pyIter,
      pure, Except.pure]
    rw [pushLoopEq, hes]
    simp only [Except.map]
  · intro cf af idS hAf hId
    simp only [commit_entry, dictGetObj, hAf, hId, Bind.bind, Except.bind,
      pySliceTake, pure, Except.pure]
    rfl
  · intro pd pr repo user action hA hMem hPR hRepo hUser
    simp only [process_pull_request_body, dictGetObj, hA, hPR, hRepo,
      Bind.bind, Except.bind]
    rw [if_pos hMem]
    simp only [dictGetObj, hUser, Bind.bind, Except.bind, pure, Except.pure]
  · intro pd iss repo user action hA hMem hIss hRepo hUser
    simp only [process_issues_body, dictGetObj, hA, hIss, hRepo,
      Bind.bind, Except.bind]
    rw [if_pos hMem]
    simp only [dictGetObj, hUser, Bind.bind, Except.bind, pure, Except.pure]
  · intro pd repo sender hA hRepo hSender
    simp only [process_star_body, dictGetObj, hA, hRepo, hSender,
      Bind.bind, Except.bind, pure, Except.pure]
  · intro pd repo forkee sender hRepo hForkee hSender
    simp only [process_fork_body, dictGetObj, hRepo, hForkee, hSender,
      Bind.bind, Except.bind, pure, Except.pure]
  · intro pd rel repo author hA hRel hRepo hAuthor
    simp only [process_release_body, dictGetObj, hA, hRel, hRepo, hAuthor,
      Bind.bind, Except.bind, pure, Except.pure]

/-- Witness for the amended C4, one concrete instance per conjunct, each with
the optional fields absent (and, for release, the name absent but the tag
present, exercising the name-to-tag fallback). -/
theorem c4_amended_defaults_witness :
    process_push_body (Json.obj [("commits", Json.arr [Json.obj []])]) =
      Except.ok "📝 **New commit to Unknown**\n\n🌿 Branch: ``\n👤 Pusher: Unknown\n📊 1 commit\n\n🔸 **No message**\n👤 Unknown • ``\n\n🔗 [View Repository]()" ∧
    commit_entry (Json.obj []) =
      Except.ok "🔸 **No message**\n👤 Unknown • ``\n\n" ∧
    process_pull_request_body (Json.obj [("action", Json.str "opened")]) =
      Except.ok msgPROpen0 ∧
    process_issues_body (Json.obj [("action", Json.str "reopened")]) =
      Except.ok "🟡 **Issue Reopened**\n\n📦 Repository: Unknown\n🐛 Issue #0: No title\n👤 Author: Unknown\n\n🔗 [View Issue]()" ∧
    process_star_body (Json.obj [("action", Json.str "created")]) =
      Except.ok "⭐ **New Star!**\n\n📦 Repository: Unknown\n👤 Starred by: Unknown\n📊 Total stars: 0\n\n🔗 [View Repository]()" ∧
    process_fork_body (Json.obj []) =
      Except.ok "🍴 **New Fork!**\n\n📦 Repository: Unknown\n👤 Forked by: Unknown\n📊 Total forks: 0\n\n🔗 [View Fork]()" ∧
    process_release_body
        (Json.obj [("action", Json.str "published"),
                   ("release", Json.obj [("tag_name", Json.str "v1")])]) =
      Except.ok "🚀 **New Release!**\n\n📦 Repository: Unknown\n🏷️ Release: v1 (v1)\n👤 Author: Unknown\n\n🔗 [View Release]()" :=
  ⟨c4_amended_defaults.1 [("commits", Json.arr [Json.obj []])] [] [] "" [Json.obj []]
     ["🔸 **No message**\n👤 Unknown • ``\n\n"] rfl rfl rfl rfl (by simp) rfl,
   c4_amended_defaults.2.1 [] [] "" rfl rfl,
   c4_amended_defaults.2.2.1 [("action", Json.str "opened")] [] [] [] "opened"
     rfl (Or.inl rfl) rfl rfl rfl,
   c4_amended_defaults.2.2.2.1 [("action", Json.str "reopened")] [] [] [] "reopened"
     rfl (Or.inr (Or.inr rfl)) rfl rfl rfl,
   c4_amended_defaults.2.2.2.2.1 [("action", Json.str "created")] [] [] rfl rfl rfl,
   c4_amended_defaults.2.2.2.2.2.1 [] [] [] [] rfl rfl rfl,
   c4_amended_defaults.2.2.2.2.2.2 [("action", Json.str "published"),
       ("release", Json.obj [("tag_name", Json.str "v1")])]
     [("tag_name", Json.str "v1")] [] [] rfl rfl rfl rfl⟩

/-- C2 (code-bug evidence): the pull_request formatter embeds the
user-supplied title verbatim — the '*' in "a*b" is not backslash-escaped in
the produced message, although utils.escape_markdown (the spec's escapeMarkup)
maps "a*b" to "a\*b"; webhook_handler.py never calls escape_markdown. -/
theorem c2_unescaped_title :
    process_pull_request_event dPRStar = msgPRStar ∧
    escape_markdown "a*b" = "a\\*b" ∧
    strContains msgPRStar "a*b" = true ∧
    strContains msgPRStar "a\\*b" = false :=
  ⟨rfl, rfl, rfl, rfl⟩

/-- C6 counterexample: with secret "k" and empty body, the header
"sha256=sha256=&lt;digest&gt;" is accepted by the code — Python's
`signature.replace('sha256=', '')` removes BOTH occurrences — whereas
stripping only a leading "sha256=" prefix leaves "sha256=&lt;digest&gt;",
which is not the digest, so the comparison the claim describes would reject
this header. -/
theorem c6_counterexample :
    verify_signature "k" [] ("sha256=sha256=" ++ digestKEmpty) = true ∧
    hexDigest (hmacSha256 (strBytes "k") []) = digestKEmpty ∧
    specStripLeadingSha256 ("sha256=sha256=" ++ digestKEmpty) ≠ digestKEmpty :=
  ⟨by decide, by decide, by decide⟩

/-- C6 amended: for every configured secret and non-empty signature header,
`_verify_signature` compares the hex HMAC-SHA256 of the body against the
header with EVERY occurrence of the substring "sha256=" removed (Python
str.replace removes all occurrences, not only a leading prefix). -/
theorem c6_verify_compares_replaced_header (webhook_secret : String)
    (payload : List Nat) (signature : String)
    (hs : webhook_secret ≠ "") (hsig : signature ≠ "") :
    verify_signature webhook_secret payload signature = true ↔
      pyReplaceToEmpty signature "sha256=" =
        hexDigest (hmacSha256 (strBytes webhook_secret) payload) := by
  have h1 : (webhook_secret == "") = false := beq_false_of_ne hs
  have h2 : (signature == "") = false := beq_false_of_ne hsig
  unfold verify_signature
  rw [h1, h2]
  simp only [Bool.false_eq_true, if_false]
  rw [compareDigestIff]
  exact eq_comm

/-- Witness for the amended C6 at secret "k", empty body, and the well-formed
header "sha256=" ++ digest. -/
theorem c6_verify_compares_replaced_header_witness :
    verify_signature "k" [] ("sha256=" ++ digestKEmpty) = true ↔
      pyReplaceToEmpty ("sha256=" ++ digestKEmpty) "sha256=" =
        hexDigest (hmacSha256 (strBytes "k") []) :=
  c6_verify_compares_replaced_header "k" [] ("sha256=" ++ digestKEmpty)
    (by decide) (by decide)

/-- C5 — Push commit cap: whenever the push processor succeeds on a payload
whose commit list has the elements `cs` (non-empty), the message is exactly
the header (which states the total count and the singular/plural commit word),
followed by the entries of the first `min |cs| 3` commits in payload order,
followed by a "|cs| - 3 more commits" trailer exactly when `|cs| > 3`,
followed by the repository link. -/
theorem c5_push_commit_cap (data : Json) (cs : List Json) (m : String)
    (hc : dictGet data "commits" (Json.arr []) = Except.ok (Json.arr cs))
    (hne : cs ≠ [])
    (hm : process_push_body data = Except.ok m) :
    ∃ (es : List String) (repoName branch pusherName url : String),
      mapEntries (cs.take 3) = Except.ok es ∧
      es.length = min cs.length 3 ∧
      m = pushHeaderStr cs.length repoName branch pusherName ++ strJoin es ++
          (if cs.length > 3 then "... and " ++ toString (cs.length - 3) ++ " more commits\n\n"
           else "") ++
          ("🔗 [View Repository](" ++ url ++ ")") ∧
      commitWord cs.length = (if cs.length = 1 then "commit" else "commits") := by
  unfold process_push_body at hm
  rw [hc] at hm
  simp only [Bind.bind, Except.bind] at hm
  cases h1 : dictGet data "repository" (Json.obj []) with
  | error e => rw [h1] at hm; simp at hm
  | ok repository =>
  rw [h1] at hm
  simp only at hm
  cases h2 : dictGet data "pusher" (Json.obj []) with
  | error e => rw [h2] at hm; simp at hm
  | ok pusher =>
  rw [h2] at hm
  simp only at hm
  cases h3 : dictGet data "ref" (Json.str "") with
  | error e => rw [h3] at hm; simp at hm
  | ok refJ =>
  rw [h3] at hm
  simp only at hm
  cases h4 : dictGet repository "full_name" (Json.str "Unknown") with
  | error e => rw [h4] at hm; simp at hm
  | ok repoNameJ =>
  rw [h4] at hm
  simp only at hm
  cases h5 : dictGet pusher "name" (Json.str "Unknown") with
  | error e => rw [h5] at hm; simp at hm
  | ok pusherNameJ =>
  rw [h5] at hm
  simp only at hm
  cases refJ with
  | str refS =>
    have htr : pyTruthy (Json.arr cs) = true := by
      cases cs with
      | nil => exact absurd rfl hne
      | cons c rest => rfl
    simp only [Except.bind, pure, Except.pure, htr, if_true, pyLen, pySliceTake, pyIter] at hm
    rw [pushLoopEq] at hm
    cases hmap : mapEntries (cs.take 3) with
    | error e => rw [hmap] at hm; simp [Except.map] at hm
    | ok es =>
    rw [hmap] at hm
    simp only [Except.map] at hm
    cases h6 : dictGet repository "html_url" (Json.str "") with
    | error e => rw [h6] at hm; simp at hm
    | ok urlJ =>
    rw [h6] at hm
    simp only [pure, Except.pure] at hm
    cases hm
    refine ⟨es, pyStr repoNameJ,
      (if ("refs/heads/".data).isPrefixOf refS.data then pyReplaceToEmpty refS "refs/heads/" else refS),
      pyStr pusherNameJ, pyStr urlJ, rfl, ?_, ?_, commitWordEq cs.length⟩
    · rw [mapEntriesLength _ _ hmap, List.length_take, Nat.min_comm]
    · apply String.ext
      by_cases hgt : cs.length > 3 <;>
        simp [hgt, String.data_append, List.append_assoc]
  | null => simp only [Except.bind] at hm; simp at hm
  | bool b => simp only [Except.bind] at hm; simp at hm
  | num n => simp only [Except.bind] at hm; simp at hm
  | arr xs => simp only [Except.bind] at hm; simp at hm
  | obj fs => simp only [Except.bind] at hm; simp at hm

/-- Witness for C5 at the five-commit payload `pushW`. -/
theorem c5_push_commit_cap_witness :
    ∃ (es : List String) (repoName branch pusherName url : String),
      mapEntries (pushWCommits.take 3) = Except.ok es ∧
      es.length = min pushWCommits.length 3 ∧
      pushWMsg = pushHeaderStr pushWCommits.length repoName branch pusherName ++ strJoin es ++
          (if pushWCommits.length > 3 then
            "... and " ++ toString (pushWCommits.length - 3) ++ " more commits\n\n"
           else "") ++
          ("🔗 [View Repository](" ++ url ++ ")") ∧
      commitWord pushWCommits.length = (if pushWCommits.length = 1 then "commit" else "commits") :=
  c5_push_commit_cap pushW pushWCommits pushWMsg rfl (by simp [pushWCommits]) rfl

end GhSync
